import Mathlib

/-!
Verification of the SlinkyLLC food-delivery schema and cart logic
(`src/models.py`).

The development shallowly embeds the Django data model and the Cart
subsystem: tables are lists of rows, the ORM calls (`objects.get`,
`objects.create`, `save`, `delete`) become explicit list operations, and
declared schema constraints (`unique_together`, `OneToOneField`, `choices`)
become predicates on tables.

Reading of the source.  `models.py` contains evident transcription slips
that make the file invalid Python as written: `def remove_menu_item:` lacks
its `(self, menu_item_id)` parameter list, `if item_exists.quantity=0:`
uses `=` for `==`, `this.order_date` stands for `self.order_date`, and the
imports of `BaseUserManager` and `ObjectDoesNotExist` are missing.  Each of
these has a single evident reading, which the embedding follows.  By
contrast, statements that parse and have well-defined (if erroneous)
runtime semantics are embedded exactly as written; in particular
`item.exists.save()` in `Cart.add_menu_item` (line 265), which raises
`AttributeError` (a `MenuItem` has no attribute `exists`) and therefore
never persists the incremented quantity, is embedded as an unhandled error
with the store unchanged.

Numbers: Python integers are unbounded, so quantities are `Int`; primary
and foreign keys are `Nat` identifiers; `DecimalField` money amounts are
`Int` numbers of cents; dates and times are opaque `Nat` codes.
-/

/-- Python runtime errors that can escape the Cart methods unhandled. -/
inductive PyError where
  | attributeError
  | multipleObjectsReturned
deriving DecidableEq

/-- Storage-layer rejection of an insert that violates a declared
constraint. -/
inductive DbError where
  | constraintViolation
deriving DecidableEq

/-- Row of `Cart` (models.py lines 246-253): a primary key, a `user`
reference — a plain `ForeignKey`, line 250 — a running `total_cost`
(`DecimalField`, in cents) and a nullable `order_date`.  The `menu_items`
many-to-many field of the model is never read or written by any of the
cart methods and carries no constraint relevant here. -/
structure CartRow where
  id : Nat
  user : Nat
  total_cost : Int
  order_date : Option Nat
deriving DecidableEq

/-- Row of `CartEntry` (models.py lines 299-305): `cart` and `menu_item`
foreign keys plus a quantity (a Python int inside the methods, hence
`Int`).  No uniqueness constraint is declared on this model. -/
structure CartEntryRow where
  cart : Nat
  menu_item : Nat
  quantity : Int
deriving DecidableEq

/-- Row of `Order` (models.py lines 157-161).  `customer` and `restaurant`
are `Option` so that an ORM `create` call that does not pass them — as
`Cart.checkout` does not — is representable; the schema declares both as
required foreign keys. -/
structure OrderRow where
  order_date : Option Nat
  customer : Option Nat
  restaurant : Option Nat
deriving DecidableEq

/-- Row of `OrderItem` (models.py lines 175-182). -/
structure OrderItemRow where
  quantity : Int
  order : Nat
  item : Nat
deriving DecidableEq

/-- The persistent store, restricted to the tables the Cart subsystem
touches.  `menu_items` holds the primary keys of the existing `MenuItem`
rows: the cart methods read no other `MenuItem` field. -/
structure DB where
  menu_items : List Nat
  carts : List CartRow
  cart_entries : List CartEntryRow
  orders : List OrderRow
  order_items : List OrderItemRow
deriving DecidableEq

/-- The row filter `cart=self, menu_item=item` used by the
`CartEntry.objects.get` lookups (models.py lines 263 and 281). -/
def entryKey (cart menu_item : Nat) (e : CartEntryRow) : Bool :=
  e.cart == cart && e.menu_item == menu_item

/-- All `CartEntry` rows matching `(cart, menu_item)`; `objects.get`
succeeds exactly when this list is a singleton, raises `DoesNotExist` on
`[]` and `MultipleObjectsReturned` otherwise. -/
def findEntries (es : List CartEntryRow) (cart menu_item : Nat) :
    List CartEntryRow :=
  es.filter (entryKey cart menu_item)

/-- Effect of `item_exists.save()` after assigning quantity `q`: the
matched row is updated in place.  (`objects.get` only succeeds on a unique
match, so at most one row satisfies the key whenever this runs.) -/
def updateQty (cart menu_item : Nat) (q : Int) (e : CartEntryRow) :
    CartEntryRow :=
  if entryKey cart menu_item e then { e with quantity := q } else e

/-- Embedding of `Cart.add_menu_item` (models.py lines 256-270), called on
the cart row with primary key `cart`.  Returns the store after the call,
and `some err` when an unhandled Python error escapes.  Branches:

* the `MenuItem.objects.get(pk=menu_item_id)` lookup fails: the
  `except ObjectDoesNotExist: pass` handler (line 269) makes the call a
  no-op;
* a `CartEntry` for `(cart, item)` already exists: line 264 increments the
  quantity on the in-memory object only, then line 265 evaluates
  `item.exists.save()` — `item` is the `MenuItem`, which has no attribute
  `exists`, so an `AttributeError` is raised before anything is saved and
  neither `except` clause catches it: the store is unchanged;
* no entry exists: line 267 runs `CartEntry.objects.create(cart=self,
  menu_item=item, quantity=1)`, inserting a fresh row with quantity 1. -/
def add_menu_item (db : DB) (cart : Nat) (menu_item_id : Nat) :
    DB × Option PyError :=
  if db.menu_items.contains menu_item_id then
    match findEntries db.cart_entries cart menu_item_id with
    | [_e] => (db, some PyError.attributeError)
    | [] =>
        ({ db with cart_entries := db.cart_entries ++ [⟨cart, menu_item_id, 1⟩] },
          none)
    | _ => (db, some PyError.multipleObjectsReturned)
  else
    (db, none)

/-- Embedding of `Cart.remove_menu_item` (models.py lines 274-289), read
through its evident syntax slips (missing parameter list on line 274, and
`=` for `==` on line 284).  Branches:

* unknown `menu_item_id`: no-op (`except ObjectDoesNotExist: pass`);
* no `CartEntry` for `(cart, item)`: no-op (`except CartEntry.DoesNotExist`);
* an entry exists: its quantity is decremented and saved (lines 282-283);
  if the decremented quantity equals 0 the saved row is then deleted
  (lines 284-285). -/
def remove_menu_item (db : DB) (cart : Nat) (menu_item_id : Nat) :
    DB × Option PyError :=
  if db.menu_items.contains menu_item_id then
    match findEntries db.cart_entries cart menu_item_id with
    | [e] =>
        if e.quantity - 1 == 0 then
          ({ db with cart_entries :=
              ((db.cart_entries.map (updateQty cart menu_item_id (e.quantity - 1))).filter
                fun x => !entryKey cart menu_item_id x) }, none)
        else
          ({ db with cart_entries :=
              db.cart_entries.map (updateQty cart menu_item_id (e.quantity - 1)) },
            none)
    | [] => (db, none)
    | _ => (db, some PyError.multipleObjectsReturned)
  else
    (db, none)

/-- Embedding of `Cart.checkout` (models.py lines 292-296), called on cart
row `self`.  The body is the single statement
`new_order = Order.objects.create(order_date=this.order_date)` (line 296,
`this` read as `self`): one `Order` row is inserted carrying only the
cart's `order_date` — no `customer` or `restaurant` is passed, no
`OrderItem` rows are created from the cart's entries, and the entries are
not deleted. -/
def checkout (db : DB) (self : CartRow) : DB × Option PyError :=
  ({ db with orders := db.orders ++ [⟨self.order_date, none, none⟩] }, none)

/-- Property of a `CartEntry` table: at most one row per
`(cart, menu_item)` pair.  The schema declares no uniqueness constraint on
`CartEntry`, so this can only be maintained by the application logic. -/
def entriesNoDup (es : List CartEntryRow) : Prop :=
  es.Pairwise fun a b => ¬ (a.cart = b.cart ∧ a.menu_item = b.menu_item)

/-- One application of a Cart method to the store, with arbitrary
arguments. -/
inductive CartOpStep : DB → DB → Prop where
  | add (db : DB) (cart menu_item_id : Nat) :
      CartOpStep db (add_menu_item db cart menu_item_id).1
  | remove (db : DB) (cart menu_item_id : Nat) :
      CartOpStep db (remove_menu_item db cart menu_item_id).1
  | checkout (db : DB) (self : CartRow) :
      CartOpStep db (checkout db self).1

/-- Insert of an `OrderItem` row under the declared
`unique_together = ('order', 'item')` constraint (models.py lines
180-182): the insert is rejected when the table already holds a row with
the same `(order, item)` pair. -/
def orderItemCreate (rows : List OrderItemRow) (r : OrderItemRow) :
    Except DbError (List OrderItemRow) :=
  if rows.any fun x => x.order == r.order && x.item == r.item then
    Except.error DbError.constraintViolation
  else
    Except.ok (rows ++ [r])

/-- Values of `Review.RatingChoices` (models.py lines 232-237). -/
def ratingChoiceValues : List Nat := [1, 2, 3, 4, 5]

/-- Row of `Review` (models.py lines 230-244); the two ratings are
`PositiveSmallIntegerField`s, hence `Nat`. -/
structure ReviewRow where
  restaurant_rating : Nat
  driver_rating : Nat
  order : Nat
  delivery : Nat
deriving DecidableEq

/-- Validation of the two rating fields against their declared `choices`
lists (models.py lines 240-241): a value is accepted exactly when it is
one of the declared choice values. -/
def reviewRatingsValid (r : ReviewRow) : Bool :=
  ratingChoiceValues.contains r.restaurant_rating &&
    ratingChoiceValues.contains r.driver_rating

/-- Row of `Delivery` (models.py lines 185-189). -/
structure DeliveryRow where
  id : Nat
  estimate_time : Nat
  delivered_time : Option Nat
  order : Nat
  driver : Nat
deriving DecidableEq

/-- Declared constraints on the `Delivery` table: distinct primary keys,
`order = OneToOneField('Order')` (line 188) and
`driver = OneToOneField('Driver')` (line 189) — that is, the `order` and
`driver` columns are each unique across rows. -/
def deliveryTableOk (rows : List DeliveryRow) : Prop :=
  rows.Pairwise (fun a b => a.id ≠ b.id) ∧
    rows.Pairwise (fun a b => a.order ≠ b.order) ∧
    rows.Pairwise (fun a b => a.driver ≠ b.driver)

/-- Declared constraints on the `Cart` table: distinct primary keys and
referential integrity of the `user` column.  `Cart.user` is a plain
`ForeignKey` (models.py line 250), so no uniqueness on `user` is declared
— despite the adjacent source comment "gives each customer has their
unique cart". -/
def cartTableOk (userIds : List Nat) (carts : List CartRow) : Prop :=
  carts.Pairwise (fun a b => a.id ≠ b.id) ∧ ∀ c ∈ carts, c.user ∈ userIds

/-- Store for the spec's checkout scenario: menu items 1 and 2 exist, and
cart 1 (user 7) holds entries [(item 1, qty 2), (item 2, qty 1)]. -/
def checkoutDB : DB :=
  { menu_items := [1, 2]
    carts := [⟨1, 7, 0, some 20230101⟩]
    cart_entries := [⟨1, 1, 2⟩, ⟨1, 2, 1⟩]
    orders := []
    order_items := [] }

/-- Store in which menu item 5 exists and cart 1 already holds an entry
for it with quantity 3. -/
def addExistingDB : DB :=
  { menu_items := [5]
    carts := [⟨1, 7, 0, none⟩]
    cart_entries := [⟨1, 5, 3⟩]
    orders := []
    order_items := [] }

/-- Store with one menu item (id 4) and one cart entry (cart 1, item 4,
quantity 2). -/
def removeDB : DB :=
  { menu_items := [4]
    carts := [⟨1, 7, 0, none⟩]
    cart_entries := [⟨1, 4, 2⟩]
    orders := []
    order_items := [] }

/-- Store with no menu items at all. -/
def emptyMenuDB : DB :=
  { menu_items := []
    carts := [⟨1, 7, 0, none⟩]
    cart_entries := [⟨1, 4, 2⟩]
    orders := []
    order_items := [] }

/-- Two Cart rows, primary keys 1 and 2, both referencing user 7. -/
def twoCartsOneUser : List CartRow := [⟨1, 7, 0, none⟩, ⟨2, 7, 0, none⟩]

/-- Two Delivery rows with distinct keys, orders and drivers. -/
def twoDeliveries : List DeliveryRow :=
  [⟨1, 30, none, 10, 100⟩, ⟨2, 45, none, 11, 101⟩]

/-- Updating an entry's quantity does not change whether it matches a key. -/
lemma entryKey_updateQty (cart menu_item : Nat) (q : Int) (e : CartEntryRow) :
    entryKey cart menu_item (updateQty cart menu_item q e) =
      entryKey cart menu_item e := by
  unfold updateQty
  split <;> rfl

/-- Updating an entry's quantity preserves its `cart` field. -/
lemma updateQty_cart (cart menu_item : Nat) (q : Int) (e : CartEntryRow) :
    (updateQty cart menu_item q e).cart = e.cart := by
  unfold updateQty
  split <;> rfl

/-- Updating an entry's quantity preserves its `menu_item` field. -/
lemma updateQty_menu_item (cart menu_item : Nat) (q : Int) (e : CartEntryRow) :
    (updateQty cart menu_item q e).menu_item = e.menu_item := by
  unfold updateQty
  split <;> rfl

/-- Filtering on `p` after removing all `p`-rows yields nothing. -/
lemma filter_after_filter_not {α : Type} (p : α → Bool) (l : List α) :
    (l.filter fun x => !p x).filter p = [] := by
  induction l with
  | nil => rfl
  | cons a t ih => by_cases h : p a <;> simp [List.filter_cons, h, ih]

/-- Filtering commutes with a map that does not disturb the filter. -/
lemma filter_map_comm {α : Type} (p : α → Bool) (f : α → α) (l : List α)
    (hp : ∀ x, p (f x) = p x) : (l.map f).filter p = (l.filter p).map f := by
  induction l with
  | nil => rfl
  | cons a t ih => by_cases h : p a <;> simp [List.filter_cons, hp, h, ih]

/-- A member satisfying the filter is the sole element of a singleton
filter result. -/
lemma eq_of_filter_singleton {α : Type} (p : α → Bool) (l : List α) (e y : α)
    (h : l.filter p = [e]) (hy : y ∈ l) (hp : p y = true) : y = e := by
  have hmem : y ∈ l.filter p := List.mem_filter.mpr ⟨hy, hp⟩
  rw [h] at hmem
  simpa using hmem

/-- Neither branch of `add_menu_item` writes to the `Cart` table. -/
lemma add_menu_item_carts_eq (db : DB) (cart mid : Nat) :
    (add_menu_item db cart mid).1.carts = db.carts := by
  unfold add_menu_item
  split
  · split <;> rfl
  · rfl

/-- Neither branch of `remove_menu_item` writes to the `Cart` table. -/
lemma remove_menu_item_carts_eq (db : DB) (cart mid : Nat) :
    (remove_menu_item db cart mid).1.carts = db.carts := by
  unfold remove_menu_item
  split
  · split
    · split <;> rfl
    · rfl
    · rfl
  · rfl

/-- Mapping `updateQty` over a duplicate-free entry table keeps it
duplicate-free: the update never changes `cart` or `menu_item`. -/
lemma entriesNoDup_map_updateQty (cart mid : Nat) (q : Int)
    (es : List CartEntryRow) (h : entriesNoDup es) :
    entriesNoDup (es.map (updateQty cart mid q)) := by
  refine h.map _ ?_
  intro a b hab hcl
  refine hab ⟨?_, ?_⟩
  · rw [← updateQty_cart cart mid q a, ← updateQty_cart cart mid q b]
    exact hcl.1
  · rw [← updateQty_menu_item cart mid q a, ← updateQty_menu_item cart mid q b]
    exact hcl.2

/-- `add_menu_item` preserves the one-entry-per-pair property. -/
lemma add_preserves_entriesNoDup (db : DB) (cart mid : Nat)
    (h : entriesNoDup db.cart_entries) :
    entriesNoDup (add_menu_item db cart mid).1.cart_entries := by
  unfold add_menu_item
  split
  · split
    · exact h
    · rename_i hnil
      refine List.pairwise_append.mpr ⟨h, List.pairwise_singleton _ _, ?_⟩
      intro a ha b hb
      have hb2 : b = (⟨cart, mid, 1⟩ : CartEntryRow) := by simpa using hb
      have hne := List.filter_eq_nil_iff.mp hnil a ha
      subst hb2
      intro hcl
      exact hne (by simp [entryKey, hcl.1, hcl.2])
    · exact h
  · exact h

/-- `remove_menu_item` preserves the one-entry-per-pair property. -/
lemma remove_preserves_entriesNoDup (db : DB) (cart mid : Nat)
    (h : entriesNoDup db.cart_entries) :
    entriesNoDup (remove_menu_item db cart mid).1.cart_entries := by
  unfold remove_menu_item
  split
  · split
    · split
      · exact (entriesNoDup_map_updateQty cart mid _ _ h).filter _
      · exact entriesNoDup_map_updateQty cart mid _ _ h
    · exact h
    · exact h
  · exact h

/-- `checkout` does not touch the `CartEntry` table. -/
lemma checkout_preserves_entriesNoDup (db : DB) (self : CartRow)
    (h : entriesNoDup db.cart_entries) :
    entriesNoDup (checkout db self).1.cart_entries := h

/-- C1: fails on the code.  On a cart holding entries
[(item 1, qty 2), (item 2, qty 1)], `checkout` raises nothing but inserts a
single bare `Order` (date only, no customer, no restaurant), creates no
`OrderItem` rows, and leaves both cart entries in place — against the
claim that the entries are copied into matching OrderItems, the Order is
associated with the cart's customer and restaurant, and the cart ends up
empty. -/
theorem checkout_creates_bare_order :
    (checkout checkoutDB ⟨1, 7, 0, some 20230101⟩).2 = none ∧
    (checkout checkoutDB ⟨1, 7, 0, some 20230101⟩).1.order_items = [] ∧
    (checkout checkoutDB ⟨1, 7, 0, some 20230101⟩).1.cart_entries =
      [⟨1, 1, 2⟩, ⟨1, 2, 1⟩] ∧
    (checkout checkoutDB ⟨1, 7, 0, some 20230101⟩).1.orders =
      [⟨some 20230101, none, none⟩] :=
  ⟨rfl, rfl, rfl, rfl⟩

/-- C2: fails on the code in the existing-entry branch.  With an existing
entry (cart 1, item 5, quantity 3), `add_menu_item` leaves the store
exactly as it was — the persisted quantity stays 3, not 4 — and an
unhandled `AttributeError` escapes, because line 265 saves through
`item.exists` instead of `item_exists`. -/
theorem add_menu_item_existing_not_persisted :
    add_menu_item addExistingDB 1 5 = (addExistingDB, some PyError.attributeError) :=
  rfl

/-- C4: with a `menu_item_id` matching no `MenuItem` row, both cart
mutations return the store unchanged and raise no error: the
`MenuItem.objects.get` lookup fails and the `except ObjectDoesNotExist`
handler turns the call into a no-op. -/
theorem missing_menu_item_noop (db : DB) (cart mid : Nat)
    (h : db.menu_items.contains mid = false) :
    add_menu_item db cart mid = (db, none) ∧
    remove_menu_item db cart mid = (db, none) := by
  unfold add_menu_item remove_menu_item
  rw [h]
  exact ⟨rfl, rfl⟩

/-- Witness for C4 at the concrete store `emptyMenuDB` and item id 9. -/
theorem missing_menu_item_noop_witness :
    emptyMenuDB.menu_items.contains 9 = false ∧
    (add_menu_item emptyMenuDB 1 9 = (emptyMenuDB, none) ∧
      remove_menu_item emptyMenuDB 1 9 = (emptyMenuDB, none)) :=
  ⟨rfl, missing_menu_item_noop emptyMenuDB 1 9 rfl⟩

/-- C5: neither `add_menu_item` nor `remove_menu_item` ever writes to the
`Cart` table, so in particular every cart's `total_cost` column is exactly
what it was before the call: the running total is never recomputed by
these mutations. -/
theorem cart_total_cost_unchanged (db : DB) (cart mid : Nat) :
    (add_menu_item db cart mid).1.carts.map CartRow.total_cost =
      db.carts.map CartRow.total_cost ∧
    (remove_menu_item db cart mid).1.carts.map CartRow.total_cost =
      db.carts.map CartRow.total_cost := by
  rw [add_menu_item_carts_eq, remove_menu_item_carts_eq]
  exact ⟨rfl, rfl⟩

/-- C7: fails on the code.  Because `Cart.user` is a plain foreign key with
no declared uniqueness (line 250), a Cart table holding two distinct rows
that both reference user 7 satisfies every constraint the schema declares
— the relation is not one-to-one. -/
theorem two_carts_per_user_accepted :
    cartTableOk [7] twoCartsOneUser ∧
    twoCartsOneUser.map CartRow.user = [7, 7] ∧
    twoCartsOneUser.map CartRow.id = [1, 2] := by
  refine ⟨⟨?_, ?_⟩, rfl, rfl⟩ <;> decide

/-- Reduction of `remove_menu_item` when the item exists and the entry
lookup returns the single row `e`. -/
lemma remove_menu_item_eq_of_find (db : DB) (cart m : Nat) (e : CartEntryRow)
    (hm : db.menu_items.contains m = true)
    (hfind : findEntries db.cart_entries cart m = [e]) :
    remove_menu_item db cart m =
      if e.quantity - 1 == 0 then
        ({ db with cart_entries :=
            ((db.cart_entries.map (updateQty cart m (e.quantity - 1))).filter
              fun x => !entryKey cart m x) }, none)
      else
        ({ db with cart_entries :=
            db.cart_entries.map (updateQty cart m (e.quantity - 1)) }, none) := by
  unfold remove_menu_item
  rw [hm, hfind]
  rfl

/-- C3: on a cart whose sole entry for `(cart, m)` has quantity `q ≥ 1` and
an existing menu item `m`, `remove_menu_item` raises no error; if `q > 1`
the entry survives with quantity `q - 1`; if `q = 1` the entry is deleted;
and when every entry of the store had positive quantity beforehand, every
entry afterwards still does — no quantity ever becomes negative. -/
theorem remove_menu_item_spec (db : DB) (cart m : Nat) (e : CartEntryRow)
    (hm : db.menu_items.contains m = true)
    (hfind : findEntries db.cart_entries cart m = [e])
    (hq : 1 ≤ e.quantity) :
    (remove_menu_item db cart m).2 = none ∧
    (1 < e.quantity →
      findEntries (remove_menu_item db cart m).1.cart_entries cart m =
        [{ e with quantity := e.quantity - 1 }]) ∧
    (e.quantity = 1 →
      findEntries (remove_menu_item db cart m).1.cart_entries cart m = []) ∧
    ((∀ x ∈ db.cart_entries, 1 ≤ x.quantity) →
      ∀ x ∈ (remove_menu_item db cart m).1.cart_entries, 1 ≤ x.quantity) := by
  have hkey : entryKey cart m e = true := by
    have hmem : e ∈ findEntries db.cart_entries cart m := by
      rw [hfind]
      exact List.mem_singleton.mpr rfl
    exact (List.mem_filter.mp hmem).2
  have hfilter : db.cart_entries.filter (entryKey cart m) = [e] := hfind
  rw [remove_menu_item_eq_of_find db cart m e hm hfind]
  by_cases hz : e.quantity - 1 = 0
  · rw [if_pos (beq_iff_eq.mpr hz)]
    refine ⟨rfl, ?_, ?_, ?_⟩
    · intro hgt
      exact absurd hz (by omega)
    · intro _
      exact filter_after_filter_not _ _
    · intro hall x hx
      have hx2 := List.mem_filter.mp hx
      obtain ⟨y, hy, hyx⟩ := List.mem_map.mp hx2.1
      by_cases hky : entryKey cart m y = true
      · exfalso
        have hkx : entryKey cart m x = true := by
          rw [← hyx, entryKey_updateQty]
          exact hky
        rw [hkx] at hx2
        exact absurd hx2.2 (by simp)
      · have hid : updateQty cart m (e.quantity - 1) y = y := by
          unfold updateQty
          rw [if_neg hky]
        rw [← hyx, hid]
        exact hall y hy
  · rw [if_neg (fun hc => hz (beq_iff_eq.mp hc))]
    refine ⟨rfl, ?_, ?_, ?_⟩
    · intro _
      show (db.cart_entries.map (updateQty cart m (e.quantity - 1))).filter
          (entryKey cart m) = [{ e with quantity := e.quantity - 1 }]
      rw [filter_map_comm _ _ _ (entryKey_updateQty cart m (e.quantity - 1)),
        hfilter]
      show [updateQty cart m (e.quantity - 1) e] = _
      unfold updateQty
      rw [if_pos hkey]
    · intro hc
      exact absurd hc (by omega)
    · intro hall x hx
      obtain ⟨y, hy, hyx⟩ := List.mem_map.mp hx
      by_cases hky : entryKey cart m y = true
      · have hye : y = e := eq_of_filter_singleton _ _ _ _ hfilter hy hky
        subst hye
        have hupd : updateQty cart m (y.quantity - 1) y =
            { y with quantity := y.quantity - 1 } := by
          unfold updateQty
          rw [if_pos hky]
        rw [← hyx, hupd]
        show 1 ≤ y.quantity - 1
        omega
      · have hid : updateQty cart m (e.quantity - 1) y = y := by
          unfold updateQty
          rw [if_neg hky]
        rw [← hyx, hid]
        exact hall y hy

/-- Witness for C3 at the store `removeDB`, whose cart 1 holds the single
entry (item 4, quantity 2). -/
theorem remove_menu_item_spec_witness :
    removeDB.menu_items.contains 4 = true ∧
    findEntries removeDB.cart_entries 1 4 = [⟨1, 4, 2⟩] ∧
    ((remove_menu_item removeDB 1 4).2 = none ∧
      (1 < (⟨1, 4, 2⟩ : CartEntryRow).quantity →
        findEntries (remove_menu_item removeDB 1 4).1.cart_entries 1 4 =
          [{ (⟨1, 4, 2⟩ : CartEntryRow) with
              quantity := (⟨1, 4, 2⟩ : CartEntryRow).quantity - 1 }]) ∧
      ((⟨1, 4, 2⟩ : CartEntryRow).quantity = 1 →
        findEntries (remove_menu_item removeDB 1 4).1.cart_entries 1 4 = []) ∧
      ((∀ x ∈ removeDB.cart_entries, 1 ≤ x.quantity) →
        ∀ x ∈ (remove_menu_item removeDB 1 4).1.cart_entries, 1 ≤ x.quantity)) :=
  ⟨rfl, rfl, remove_menu_item_spec removeDB 1 4 ⟨1, 4, 2⟩ rfl rfl (by decide)⟩

/-- C6: the at-most-one-CartEntry-per-(cart, menu_item) property holds in
every store reachable through the cart operations from a store satisfying
it.  The schema declares no uniqueness constraint on `CartEntry`, so the
property is maintained purely by the method logic. -/
theorem cart_ops_preserve_entriesNoDup (db0 db : DB)
    (h0 : entriesNoDup db0.cart_entries)
    (hreach : Relation.ReflTransGen CartOpStep db0 db) :
    entriesNoDup db.cart_entries := by
  induction hreach with
  | refl => exact h0
  | tail hsteps hstep ih =>
      cases hstep with
      | add cart mid => exact add_preserves_entriesNoDup _ cart mid ih
      | remove cart mid => exact remove_preserves_entriesNoDup _ cart mid ih
      | checkout self => exact checkout_preserves_entriesNoDup _ self ih

/-- Witness for C6: the concrete store `checkoutDB` is duplicate-free, and
the store reached from it by one `add_menu_item` step still is. -/
theorem cart_ops_preserve_entriesNoDup_witness :
    entriesNoDup checkoutDB.cart_entries ∧
    entriesNoDup (add_menu_item checkoutDB 1 1).1.cart_entries := by
  have h0 : entriesNoDup checkoutDB.cart_entries := by
    unfold entriesNoDup
    decide
  exact ⟨h0, cart_ops_preserve_entriesNoDup checkoutDB _ h0
    (Relation.ReflTransGen.single (CartOpStep.add checkoutDB 1 1))⟩

/-- C8: inserting an `OrderItem` whose `(order, item)` pair already occurs
in the table is rejected by the declared `unique_together` constraint
rather than producing a duplicate row. -/
theorem orderItem_duplicate_rejected (rows : List OrderItemRow)
    (r x : OrderItemRow) (hx : x ∈ rows) (ho : x.order = r.order)
    (hi : x.item = r.item) :
    orderItemCreate rows r = Except.error DbError.constraintViolation := by
  have hc : (rows.any fun y => y.order == r.order && y.item == r.item) = true :=
    List.any_eq_true.mpr ⟨x, hx, by simp [ho, hi]⟩
  unfold orderItemCreate
  rw [hc]
  rfl

/-- Witness for C8: a table already holding a row for (order 10, item 5)
rejects the insert of another row for (order 10, item 5). -/
theorem orderItem_duplicate_rejected_witness :
    (⟨2, 10, 5⟩ : OrderItemRow) ∈ [(⟨2, 10, 5⟩ : OrderItemRow)] ∧
    orderItemCreate [⟨2, 10, 5⟩] ⟨1, 10, 5⟩ =
      Except.error DbError.constraintViolation :=
  ⟨List.mem_singleton.mpr rfl,
    orderItem_duplicate_rejected [⟨2, 10, 5⟩] ⟨1, 10, 5⟩ ⟨2, 10, 5⟩
      (List.mem_singleton.mpr rfl) rfl rfl⟩

/-- C9: a Review row passes the declared rating-choices validation exactly
when both its ratings lie in the integer range 1..5; any value outside
that range is rejected. -/
theorem review_ratings_iff (r : ReviewRow) :
    reviewRatingsValid r = true ↔
      (1 ≤ r.restaurant_rating ∧ r.restaurant_rating ≤ 5 ∧
        1 ≤ r.driver_rating ∧ r.driver_rating ≤ 5) := by
  simp [reviewRatingsValid, ratingChoiceValues, List.contains]
  omega

/-- C10: under the Delivery table's declared constraints, two rows with
different primary keys never share a driver — `driver` is declared as a
OneToOneField, so a driver cannot be assigned to two deliveries. -/
theorem delivery_driver_unique (rows : List DeliveryRow) (a b : DeliveryRow)
    (hok : deliveryTableOk rows) (ha : a ∈ rows) (hb : b ∈ rows)
    (hne : a.id ≠ b.id) : a.driver ≠ b.driver := by
  have hab : a ≠ b := fun hcontra => hne (by rw [hcontra])
  exact List.Pairwise.forall (fun x y hxy => Ne.symm hxy) hok.2.2 ha hb hab

/-- Witness for C10 at the concrete two-row Delivery table. -/
theorem delivery_driver_unique_witness :
    deliveryTableOk twoDeliveries ∧
    (⟨1, 30, none, 10, 100⟩ : DeliveryRow).driver ≠
      (⟨2, 45, none, 11, 101⟩ : DeliveryRow).driver := by
  have hok : deliveryTableOk twoDeliveries := by
    unfold deliveryTableOk
    refine ⟨?_, ?_, ?_⟩ <;> decide
  refine ⟨hok, delivery_driver_unique twoDeliveries _ _ hok ?_ ?_ ?_⟩
  · decide
  · decide
  · decide
